import Mathlib

/-!
Shallow embedding of the Impulso Inversor v2 frontend
(React/TypeScript, `frontend/src`) for verification of its
natural-language specification.

The embedding follows the TypeScript source:
* `types.ts` — the `RISK_BUCKETS` and `ETF_COLORS` constant tables and the
  `QuestionnaireAnswers` / `ApiResponse` shapes;
* `pages/profile/RiskAssessmentPage.tsx` — the zod validation schema
  `riskAssessmentSchema`, the fixed option sets of the questionnaire
  `questions`, and the result-page lookup `RISK_BUCKETS[risk_bucket]`;
* `services/api.ts` — the `apiRequest` wrapper and its error handling;
* `context/AuthContext.tsx` — `initialState` and `authReducer`.

The backend scoring and diversification engine is not part of the
frontend sources; where a claim concerns it, the definition is modelled
from the specification and marked as such in its doc comment.
-/

set_option maxRecDepth 4000

namespace Impulso

/-! ## Risk bucket catalog (`types.ts`, `RISK_BUCKETS`) -/

/-- One entry of the `RISK_BUCKETS` table: a fixed label, display color
and description. -/
structure BucketInfo where
  label : String
  color : String
  description : String
deriving DecidableEq, Repr

/-- The `RISK_BUCKETS` constant of `types.ts`: an immutable object literal
keyed by the integers 0..4 (`as const`, no runtime mutation path). -/
def RISK_BUCKETS : List (Int × BucketInfo) :=
  [ (0, ⟨"Conservador", "#4CAF50", "Prioriza preservación del capital"⟩),
    (1, ⟨"Moderado", "#2196F3", "Balance entre seguridad y crecimiento"⟩),
    (2, ⟨"Balanceado", "#FF9800", "Distribución equilibrada"⟩),
    (3, ⟨"Crecimiento", "#FF5722", "Enfocado en crecimiento largo plazo"⟩),
    (4, ⟨"Agresivo", "#9C27B0", "Máximo crecimiento, alta volatilidad"⟩) ]

/-- JavaScript keyed access on an object literal viewed as an association
list: `some v` when the key is present, `none` (JS `undefined`)
otherwise. -/
def assocFind {α β : Type} [DecidableEq α] (k : α) :
    List (α × β) → Option β
  | [] => none
  | (a, b) :: rest => if k = a then some b else assocFind k rest

/-- JavaScript property access `RISK_BUCKETS[n]`: `some info` when the key
is present, `none` (JS `undefined`) otherwise. -/
def riskBucketAccess (n : Int) : Option BucketInfo :=
  assocFind n RISK_BUCKETS

/-- The result branch of `RiskAssessmentPage` (lines 196-246): it reads
`RISK_BUCKETS[riskResult.risk_bucket]` and then dereferences
`riskBucket.color`, `riskBucket.label` and `riskBucket.description`.
`some` is a successfully rendered page (color, label, description, score);
`none` means the dereference of JS `undefined` throws and the page cannot
render. -/
def renderRiskResult (total_score : Int) (risk_bucket : Int) :
    Option (String × String × String × Int) :=
  match riskBucketAccess risk_bucket with
  | some b => some (b.color, b.label, b.description, total_score)
  | none => none

/-! ## Instrument universe (`types.ts`, `ETF_COLORS`) -/

/-- The `ETF_COLORS` constant of `types.ts`: the closed instrument
universe with a display color per ticker (`as const`). -/
def ETF_COLORS : List (String × String) :=
  [ ("BIL", "#2E7D32"),
    ("AGG", "#1976D2"),
    ("ACWI", "#388E3C"),
    ("VNQ", "#F57C00"),
    ("GLD", "#FFD700") ]

/-- JavaScript property access `ETF_COLORS[ticker]`. -/
def etfColorAccess (t : String) : Option String :=
  assocFind t ETF_COLORS

/-! ## Questionnaire validation
(`RiskAssessmentPage.tsx`, `riskAssessmentSchema` and `questions`) -/

/-- A raw questionnaire submission as it reaches the zod schema: every
field may be absent. -/
structure RawSubmission where
  age : Option Int
  horizon : Option String
  income : Option String
  knowledge : Option String
  max_drop : Option String
  reaction : Option String
  liquidity : Option String
  goal : Option String
  inflation : Option String
  digital : Option String
deriving DecidableEq, Repr

/-- The parsed form (`RiskAssessmentForm = z.infer<typeof
riskAssessmentSchema>`): all ten fields present. -/
structure RiskAssessmentForm where
  age : Int
  horizon : String
  income : String
  knowledge : String
  max_drop : String
  reaction : String
  liquidity : String
  goal : String
  inflation : String
  digital : String
deriving DecidableEq, Repr

/-- The field schema `z.number().min(18).max(100)` applied to a possibly
missing `age` value: a missing field is rejected (`z.object` fields are
required by default); an out-of-range value is rejected; an accepted
value is passed through unchanged. -/
def parseAge (o : Option Int) : Option Int :=
  match o with
  | some a => if 18 ≤ a ∧ a ≤ 100 then some a else none
  | none => none

/-- The field schema `z.string().min(1)` applied to a possibly missing
categorical value: a missing field is rejected; a string of length at
least 1 passes — membership in any option set is NOT checked; an
accepted value is passed through unchanged. -/
def parseNonempty (o : Option String) : Option String :=
  match o with
  | some s => if 1 ≤ s.length then some s else none
  | none => none

/-- `riskAssessmentSchema.parse`: `z.object` applies each field schema
and succeeds exactly when all ten succeed, assembling the parsed form
from the field outputs; no defaults are substituted. -/
def zodParse (r : RawSubmission) : Option RiskAssessmentForm := do
  let a ← parseAge r.age
  let h ← parseNonempty r.horizon
  let i ← parseNonempty r.income
  let k ← parseNonempty r.knowledge
  let m ← parseNonempty r.max_drop
  let re ← parseNonempty r.reaction
  let l ← parseNonempty r.liquidity
  let g ← parseNonempty r.goal
  let inf ← parseNonempty r.inflation
  let d ← parseNonempty r.digital
  pure ⟨a, h, i, k, m, re, l, g, inf, d⟩

/-- The fixed option values of the `horizon` question in `questions`. -/
def horizonLabels : List String :=
  ["< 3 años", "3-5 años", "5-10 años", "> 10 años"]

/-- The fixed option values of the `income` question in `questions`. -/
def incomeLabels : List String :=
  ["< 5 %", "5-10 %", "10-20 %", "> 20 %"]

/-- The fixed option values of the `knowledge` question in `questions`. -/
def knowledgeLabels : List String :=
  ["Principiante", "Intermedio", "Avanzado"]

/-- The fixed option values of the `max_drop` question in `questions`. -/
def maxDropLabels : List String :=
  ["5 %", "10 %", "20 %", "30 %", "> 30 %"]

/-- The fixed option values of the `reaction` question in `questions`. -/
def reactionLabels : List String :=
  ["Vendo todo", "Vendo una parte", "No hago nada", "Compro más"]

/-- The fixed option values of the `liquidity` question in `questions`. -/
def liquidityLabels : List String :=
  ["Alta", "Media", "Baja"]

/-- The fixed option values of the `goal` question in `questions`. -/
def goalLabels : List String :=
  ["Proteger capital", "Ingresos regulares", "Crecimiento balanceado",
   "Máximo crecimiento"]

/-- The fixed option values of the `inflation` question in `questions`. -/
def inflationLabels : List String :=
  ["No me preocupa", "Me preocupa moderadamente", "Me preocupa mucho"]

/-- The fixed option values of the `digital` question in `questions`. -/
def digitalLabels : List String :=
  ["Baja", "Media", "Alta"]

/-- A submission whose nine categorical answers are drawn from the fixed
option sets, with a chosen age — used to probe the age bound in
isolation. -/
def submissionWithAge (a : Int) : RawSubmission :=
  ⟨some a, some "< 3 años", some "< 5 %", some "Principiante",
   some "5 %", some "Vendo todo", some "Alta", some "Proteger capital",
   some "No me preocupa", some "Baja"⟩

/-- A submission whose `horizon` value is a nonempty string outside the
fixed `horizon` option set; all other fields are valid. -/
def outOfSetSubmission : RawSubmission :=
  ⟨some 30, some "xyz", some "< 5 %", some "Principiante",
   some "5 %", some "Vendo todo", some "Alta", some "Proteger capital",
   some "No me preocupa", some "Baja"⟩

/-! ## API request wrapper (`services/api.ts`, `apiRequest`) -/

/-- The `ApiResponse` shape of `types.ts`, with the payload abstracted to
a string. -/
structure ApiResponse where
  success : Bool
  data : Option String
  error : Option String
deriving DecidableEq, Repr

/-- The possible outcomes of the awaited `apiClient.request` call inside
`apiRequest`: a resolved response with a parsed body, a rejected axios
error (carrying the optional response body and the error message), or a
non-axios exception. -/
inductive RequestOutcome where
  | ok (body : ApiResponse)
  | axiosErr (responseBody : Option ApiResponse) (message : String)
  | nonAxios
deriving DecidableEq, Repr

/-- `apiRequest` of `services/api.ts` (lines 85-119) as a function of the
HTTP outcome: returns `response.data` on success; on an axios error
returns the response body when it exists with `success` false, otherwise
a failure response carrying `error.message` (or the fallback
"Error de conexión" when the message is empty/falsy); on any other
exception returns the fixed "Error inesperado" failure. It never
throws. -/
def apiRequest : RequestOutcome → ApiResponse
  | .ok body => body
  | .axiosErr rb msg =>
    match rb with
    | some apiErr =>
      if apiErr.success = false then apiErr
      else ⟨false, none, some (if msg = "" then "Error de conexión" else msg)⟩
    | none => ⟨false, none, some (if msg = "" then "Error de conexión" else msg)⟩
  | .nonAxios => ⟨false, none, some "Error inesperado"⟩

/-! ## Authentication state machine (`context/AuthContext.tsx`) -/

/-- The `User` shape of `types.ts`. -/
structure User where
  id : Nat
  email : String
  first_name : Option String
  last_name : Option String
  full_name : String
  is_active : Bool
  created_at : String
  updated_at : String
  has_risk_profile : Bool
  has_portfolio : Bool
deriving DecidableEq, Repr

/-- A `Partial<User>` payload for `UPDATE_USER`: every field optional;
`none` means the key is absent from the payload. -/
structure UserPatch where
  id : Option Nat
  email : Option String
  first_name : Option (Option String)
  last_name : Option (Option String)
  full_name : Option String
  is_active : Option Bool
  created_at : Option String
  updated_at : Option String
  has_risk_profile : Option Bool
  has_portfolio : Option Bool
deriving DecidableEq, Repr

/-- The object spread `{ ...state.user, ...action.payload }`: each field
present in the patch replaces the corresponding field of the user. -/
def mergeUser (u : User) (p : UserPatch) : User :=
  ⟨p.id.getD u.id, p.email.getD u.email, p.first_name.getD u.first_name,
   p.last_name.getD u.last_name, p.full_name.getD u.full_name,
   p.is_active.getD u.is_active, p.created_at.getD u.created_at,
   p.updated_at.getD u.updated_at,
   p.has_risk_profile.getD u.has_risk_profile,
   p.has_portfolio.getD u.has_portfolio⟩

/-- The `AuthState` of `AuthContext.tsx`. -/
structure AuthState where
  user : Option User
  isAuthenticated : Bool
  isLoading : Bool
  error : Option String
deriving DecidableEq, Repr

/-- The `AuthAction` union of `AuthContext.tsx`. -/
inductive AuthAction where
  | authStart
  | authSuccess (payload : User)
  | authError (payload : String)
  | authLogout
  | clearError
  | updateUser (payload : UserPatch)
deriving DecidableEq, Repr

/-- `initialState` of `AuthContext.tsx` (lines 23-28). -/
def initialState : AuthState :=
  ⟨none, false, true, none⟩

/-- `authReducer` of `AuthContext.tsx` (lines 31-76), case by case. -/
def authReducer (state : AuthState) : AuthAction → AuthState
  | .authStart => { state with isLoading := true, error := none }
  | .authSuccess payload =>
    { state with user := some payload, isAuthenticated := true,
                 isLoading := false, error := none }
  | .authError payload =>
    { state with user := none, isAuthenticated := false,
                 isLoading := false, error := some payload }
  | .authLogout =>
    { state with user := none, isAuthenticated := false,
                 isLoading := false, error := none }
  | .clearError => { state with error := none }
  | .updateUser payload =>
    { state with user := match state.user with
                         | some u => some (mergeUser u payload)
                         | none => none }

/-- The state reached from `initialState` after dispatching a sequence of
actions. -/
def runAuth (acts : List AuthAction) : AuthState :=
  acts.foldl authReducer initialState

/-- The authentication invariant: an authenticated state always carries a
user object. -/
def authInv (s : AuthState) : Prop :=
  s.isAuthenticated = true → s.user ≠ none

/-! ## Questionnaire scorer (spec-modelled: the scoring engine lives in
the Flask backend, which is not among the frontend sources) -/

/-- The fixed label set of the `horizon` question, as a closed type. -/
inductive Horizon where
  | lt3 | h3to5 | h5to10 | gt10
deriving DecidableEq, Repr

/-- The fixed label set of the `income` question, as a closed type. -/
inductive Income where
  | lt5 | i5to10 | i10to20 | gt20
deriving DecidableEq, Repr

/-- The fixed label set of the `knowledge` question, as a closed type. -/
inductive Knowledge where
  | principiante | intermedio | avanzado
deriving DecidableEq, Repr

/-- The fixed label set of the `max_drop` question, as a closed type. -/
inductive MaxDrop where
  | d5 | d10 | d20 | d30 | gt30
deriving DecidableEq, Repr

/-- The fixed label set of the `reaction` question, as a closed type. -/
inductive Reaction where
  | vendoTodo | vendoParte | noHagoNada | comproMas
deriving DecidableEq, Repr

/-- The fixed label set of the `liquidity` question, as a closed type. -/
inductive Liquidity where
  | alta | media | baja
deriving DecidableEq, Repr

/-- The fixed label set of the `goal` question, as a closed type. -/
inductive Goal where
  | protegerCapital | ingresosRegulares | crecimientoBalanceado
  | maximoCrecimiento
deriving DecidableEq, Repr

/-- The fixed label set of the `inflation` question, as a closed type. -/
inductive Inflation where
  | noPreocupa | moderadamente | mucho
deriving DecidableEq, Repr

/-- The fixed label set of the `digital` question, as a closed type. -/
inductive Digital where
  | baja | media | alta
deriving DecidableEq, Repr

/-- A valid `QuestionnaireAnswers` record (`types.ts`): age plus the nine
categorical answers, each drawn from its fixed label set. -/
structure ValidAnswers where
  age : Int
  horizon : Horizon
  income : Income
  knowledge : Knowledge
  max_drop : MaxDrop
  reaction : Reaction
  liquidity : Liquidity
  goal : Goal
  inflation : Inflation
  digital : Digital
deriving DecidableEq, Repr

/-- Modelled from the spec: the age row of the ScoreWeightTable of the
backend scorer (missing from the frontend sources) — a monotonic step
function, lower age ⇒ higher points, each value at most 5. -/
def agePoints (a : Int) : Nat :=
  if a ≤ 30 then 5
  else if a ≤ 40 then 4
  else if a ≤ 50 then 3
  else if a ≤ 60 then 2
  else if a ≤ 70 then 1
  else 0

/-- Modelled from the spec: the `horizon` row of the ScoreWeightTable
(missing from the frontend sources) — a direct label-to-points lookup,
riskier answers scoring higher, at most 5 points. -/
def horizonPoints : Horizon → Nat
  | .lt3 => 0 | .h3to5 => 2 | .h5to10 => 3 | .gt10 => 5

/-- Modelled from the spec: the `income` row of the ScoreWeightTable
(missing from the frontend sources). -/
def incomePoints : Income → Nat
  | .lt5 => 0 | .i5to10 => 2 | .i10to20 => 3 | .gt20 => 5

/-- Modelled from the spec: the `knowledge` row of the ScoreWeightTable
(missing from the frontend sources). -/
def knowledgePoints : Knowledge → Nat
  | .principiante => 0 | .intermedio => 3 | .avanzado => 5

/-- Modelled from the spec: the `max_drop` row of the ScoreWeightTable
(missing from the frontend sources). -/
def maxDropPoints : MaxDrop → Nat
  | .d5 => 0 | .d10 => 2 | .d20 => 3 | .d30 => 4 | .gt30 => 5

/-- Modelled from the spec: the `reaction` row of the ScoreWeightTable
(missing from the frontend sources). -/
def reactionPoints : Reaction → Nat
  | .vendoTodo => 0 | .vendoParte => 2 | .noHagoNada => 3 | .comproMas => 5

/-- Modelled from the spec: the `liquidity` row of the ScoreWeightTable
(missing from the frontend sources). -/
def liquidityPoints : Liquidity → Nat
  | .alta => 0 | .media => 3 | .baja => 5

/-- Modelled from the spec: the `goal` row of the ScoreWeightTable
(missing from the frontend sources). -/
def goalPoints : Goal → Nat
  | .protegerCapital => 0 | .ingresosRegulares => 2
  | .crecimientoBalanceado => 3 | .maximoCrecimiento => 5

/-- Modelled from the spec: the `inflation` row of the ScoreWeightTable
(missing from the frontend sources). -/
def inflationPoints : Inflation → Nat
  | .noPreocupa => 0 | .moderadamente => 3 | .mucho => 5

/-- Modelled from the spec: the `digital` row of the ScoreWeightTable
(missing from the frontend sources). -/
def digitalPoints : Digital → Nat
  | .baja => 0 | .media => 3 | .alta => 5

/-- Modelled from the spec: the QuestionnaireScorer of the backend
(missing from the frontend sources) — the total score is the unweighted
sum of the ten per-field point values, each field contributing at most 5
points; no randomness, no hidden state. -/
def totalScore (a : ValidAnswers) : Nat :=
  agePoints a.age + horizonPoints a.horizon + incomePoints a.income +
  knowledgePoints a.knowledge + maxDropPoints a.max_drop +
  reactionPoints a.reaction + liquidityPoints a.liquidity +
  goalPoints a.goal + inflationPoints a.inflation +
  digitalPoints a.digital

/-! ## Diversification analyzer (spec-modelled: the analyzer lives in the
Flask backend, which is not among the frontend sources; `types.ts` only
declares its `DiversificationAnalysis` response shape) -/

/-- The `DiversificationAnalysis` shape of `types.ts` (score, breakdown
omitted, number of nonzero positions, maximum single-instrument weight,
recommendations). -/
structure DiversificationReport where
  score : ℚ
  total_assets : Nat
  max_concentration : ℚ
  recommendations : List String
deriving DecidableEq, Repr

/-- Modelled from the spec: the DiversificationAnalyzer of the backend
(missing from the frontend sources) — the score is `1 − Σ(weight_i²)`,
the complement of a Herfindahl-style concentration index; the report also
carries the maximum single-instrument weight, the number of nonzero
positions, and threshold-based recommendations. -/
def analyzeDiversification (alloc : List (String × ℚ)) :
    DiversificationReport :=
  let maxW := (alloc.map Prod.snd).foldl max 0
  let positions := (alloc.filter fun p => p.2 ≠ 0).length
  { score := 1 - (alloc.map fun p => p.2 * p.2).sum,
    total_assets := positions,
    max_concentration := maxW,
    recommendations :=
      (if 1/2 < maxW then ["Reducir la concentración"] else []) ++
      (if positions < 3 then ["Diversificar más ampliamente"] else []) }

/-- A single-instrument allocation: all weight on one ticker. -/
def singleAllocation : List (String × ℚ) := [("ACWI", 1)]

/-- An equal five-way split over the instrument universe. -/
def fiveWayAllocation : List (String × ℚ) :=
  [("BIL", 1/5), ("AGG", 1/5), ("ACWI", 1/5), ("VNQ", 1/5), ("GLD", 1/5)]

/-! ## Concrete sample values used by witnesses -/

/-- A concrete valid answer set. -/
def exampleAnswers : ValidAnswers :=
  ⟨30, .gt10, .gt20, .avanzado, .gt30, .comproMas, .baja,
   .maximoCrecimiento, .mucho, .alta⟩

/-- A concrete user record. -/
def exampleUser : User :=
  ⟨1, "gonzalo@example.com", some "Gonzalo", none, "Gonzalo", true,
   "2025-01-01", "2025-01-01", false, false⟩

/-- The form produced by parsing `submissionWithAge 30`. -/
def exampleForm : RiskAssessmentForm :=
  ⟨30, "< 3 años", "< 5 %", "Principiante", "5 %", "Vendo todo", "Alta",
   "Proteger capital", "No me preocupa", "Baja"⟩

/-! ## Helper lemmas -/

theorem parseAge_eq_some {o : Option Int} {a : Int} :
    parseAge o = some a ↔ o = some a ∧ 18 ≤ a ∧ a ≤ 100 := by
  cases o with
  | none => simp [parseAge]
  | some x =>
    simp only [parseAge]
    split_ifs with h
    · constructor
      · intro hxa
        cases hxa
        exact ⟨rfl, h⟩
      · rintro ⟨hxa, -⟩
        cases hxa
        rfl
    · constructor
      · intro hxa
        cases hxa
      · rintro ⟨hxa, h18, h100⟩
        cases hxa
        exact absurd ⟨h18, h100⟩ h

theorem parseNonempty_eq_some {o : Option String} {s : String} :
    parseNonempty o = some s ↔ o = some s ∧ 1 ≤ s.length := by
  cases o with
  | none => simp [parseNonempty]
  | some x =>
    simp only [parseNonempty]
    split_ifs with h
    · constructor
      · intro hxs
        cases hxs
        exact ⟨rfl, h⟩
      · rintro ⟨hxs, -⟩
        cases hxs
        rfl
    · constructor
      · intro hxs
        cases hxs
      · rintro ⟨hxs, hlen⟩
        cases hxs
        exact absurd hlen h

/-- Characterization of a successful `riskAssessmentSchema` parse: every
field of the output is the corresponding input field, the age is in
[18, 100], and each categorical string is nonempty. -/
theorem zodParse_eq_some_iff (r : RawSubmission) (f : RiskAssessmentForm) :
    zodParse r = some f ↔
      (r.age = some f.age ∧ 18 ≤ f.age ∧ f.age ≤ 100) ∧
      (r.horizon = some f.horizon ∧ 1 ≤ f.horizon.length) ∧
      (r.income = some f.income ∧ 1 ≤ f.income.length) ∧
      (r.knowledge = some f.knowledge ∧ 1 ≤ f.knowledge.length) ∧
      (r.max_drop = some f.max_drop ∧ 1 ≤ f.max_drop.length) ∧
      (r.reaction = some f.reaction ∧ 1 ≤ f.reaction.length) ∧
      (r.liquidity = some f.liquidity ∧ 1 ≤ f.liquidity.length) ∧
      (r.goal = some f.goal ∧ 1 ≤ f.goal.length) ∧
      (r.inflation = some f.inflation ∧ 1 ≤ f.inflation.length) ∧
      (r.digital = some f.digital ∧ 1 ≤ f.digital.length) := by
  obtain ⟨fa, fh, fi, fk, fm, fre, fl, fg, finf, fd⟩ := f
  simp only [zodParse, Option.bind_eq_bind', Option.bind_eq_some',
    Option.pure_def, Option.some_inj, parseAge_eq_some,
    parseNonempty_eq_some, RiskAssessmentForm.mk.injEq]
  constructor
  · rintro ⟨a, ⟨ha, h18, h100⟩, h, ⟨hh, hhl⟩, i, ⟨hi, hil⟩, k, ⟨hk, hkl⟩,
      m, ⟨hm, hml⟩, re, ⟨hre, hrel⟩, l, ⟨hl, hll⟩, g, ⟨hg, hgl⟩,
      inf, ⟨hinf, hinfl⟩, d, ⟨hd, hdl⟩, he⟩
    obtain ⟨e1, e2, e3, e4, e5, e6, e7, e8, e9, e10⟩ := he
    subst e1; subst e2; subst e3; subst e4; subst e5
    subst e6; subst e7; subst e8; subst e9; subst e10
    exact ⟨⟨ha, h18, h100⟩, ⟨hh, hhl⟩, ⟨hi, hil⟩, ⟨hk, hkl⟩, ⟨hm, hml⟩,
      ⟨hre, hrel⟩, ⟨hl, hll⟩, ⟨hg, hgl⟩, ⟨hinf, hinfl⟩, ⟨hd, hdl⟩⟩
  · rintro ⟨⟨ha, h18, h100⟩, ⟨hh, hhl⟩, ⟨hi, hil⟩, ⟨hk, hkl⟩, ⟨hm, hml⟩,
      ⟨hre, hrel⟩, ⟨hl, hll⟩, ⟨hg, hgl⟩, ⟨hinf, hinfl⟩, ⟨hd, hdl⟩⟩
    exact ⟨fa, ⟨ha, h18, h100⟩, fh, ⟨hh, hhl⟩, fi, ⟨hi, hil⟩,
      fk, ⟨hk, hkl⟩, fm, ⟨hm, hml⟩, fre, ⟨hre, hrel⟩, fl, ⟨hl, hll⟩,
      fg, ⟨hg, hgl⟩, finf, ⟨hinf, hinfl⟩, fd, ⟨hd, hdl⟩,
      rfl, rfl, rfl, rfl, rfl, rfl, rfl, rfl, rfl, rfl⟩

/-- `riskAssessmentSchema` accepts a submission exactly when all ten
fields are present, the age is in [18, 100] and the nine categorical
strings are nonempty. -/
theorem zodParse_isSome_iff (r : RawSubmission) :
    (zodParse r).isSome ↔
      (∃ a, r.age = some a ∧ 18 ≤ a ∧ a ≤ 100) ∧
      (∃ s, r.horizon = some s ∧ 1 ≤ s.length) ∧
      (∃ s, r.income = some s ∧ 1 ≤ s.length) ∧
      (∃ s, r.knowledge = some s ∧ 1 ≤ s.length) ∧
      (∃ s, r.max_drop = some s ∧ 1 ≤ s.length) ∧
      (∃ s, r.reaction = some s ∧ 1 ≤ s.length) ∧
      (∃ s, r.liquidity = some s ∧ 1 ≤ s.length) ∧
      (∃ s, r.goal = some s ∧ 1 ≤ s.length) ∧
      (∃ s, r.inflation = some s ∧ 1 ≤ s.length) ∧
      (∃ s, r.digital = some s ∧ 1 ≤ s.length) := by
  rw [Option.isSome_iff_exists]
  constructor
  · rintro ⟨f, hf⟩
    rw [zodParse_eq_some_iff] at hf
    obtain ⟨⟨ha, h18, h100⟩, ⟨hh, hhl⟩, ⟨hi, hil⟩, ⟨hk, hkl⟩, ⟨hm, hml⟩,
      ⟨hre, hrel⟩, ⟨hl, hll⟩, ⟨hg, hgl⟩, ⟨hinf, hinfl⟩, ⟨hd, hdl⟩⟩ := hf
    exact ⟨⟨f.age, ha, h18, h100⟩, ⟨f.horizon, hh, hhl⟩,
      ⟨f.income, hi, hil⟩, ⟨f.knowledge, hk, hkl⟩,
      ⟨f.max_drop, hm, hml⟩, ⟨f.reaction, hre, hrel⟩,
      ⟨f.liquidity, hl, hll⟩, ⟨f.goal, hg, hgl⟩,
      ⟨f.inflation, hinf, hinfl⟩, ⟨f.digital, hd, hdl⟩⟩
  · rintro ⟨⟨a, ha, h18, h100⟩, ⟨h, hh, hhl⟩, ⟨i, hi, hil⟩, ⟨k, hk, hkl⟩,
      ⟨m, hm, hml⟩, ⟨re, hre, hrel⟩, ⟨l, hl, hll⟩, ⟨g, hg, hgl⟩,
      ⟨inf, hinf, hinfl⟩, ⟨d, hd, hdl⟩⟩
    refine ⟨⟨a, h, i, k, m, re, l, g, inf, d⟩, ?_⟩
    rw [zodParse_eq_some_iff]
    exact ⟨⟨ha, h18, h100⟩, ⟨hh, hhl⟩, ⟨hi, hil⟩, ⟨hk, hkl⟩, ⟨hm, hml⟩,
      ⟨hre, hrel⟩, ⟨hl, hll⟩, ⟨hg, hgl⟩, ⟨hinf, hinfl⟩, ⟨hd, hdl⟩⟩

theorem agePoints_le (a : Int) : agePoints a ≤ 5 := by
  unfold agePoints
  split_ifs <;> omega

theorem horizonPoints_le (x : Horizon) : horizonPoints x ≤ 5 := by
  cases x <;> decide

theorem incomePoints_le (x : Income) : incomePoints x ≤ 5 := by
  cases x <;> decide

theorem knowledgePoints_le (x : Knowledge) : knowledgePoints x ≤ 5 := by
  cases x <;> decide

theorem maxDropPoints_le (x : MaxDrop) : maxDropPoints x ≤ 5 := by
  cases x <;> decide

theorem reactionPoints_le (x : Reaction) : reactionPoints x ≤ 5 := by
  cases x <;> decide

theorem liquidityPoints_le (x : Liquidity) : liquidityPoints x ≤ 5 := by
  cases x <;> decide

theorem goalPoints_le (x : Goal) : goalPoints x ≤ 5 := by
  cases x <;> decide

theorem inflationPoints_le (x : Inflation) : inflationPoints x ≤ 5 := by
  cases x <;> decide

theorem digitalPoints_le (x : Digital) : digitalPoints x ≤ 5 := by
  cases x <;> decide

/-- Every single reducer step preserves the authentication invariant. -/
theorem authReducer_preserves (s : AuthState) (a : AuthAction)
    (h : authInv s) : authInv (authReducer s a) := by
  cases a with
  | authStart => intro hA; exact h hA
  | authSuccess u => intro _; simp [authReducer]
  | authError p => intro hA; simp [authReducer] at hA
  | authLogout => intro hA; simp [authReducer] at hA
  | clearError => intro hA; exact h hA
  | updateUser p =>
    intro hA
    have hu := h hA
    simp only [authReducer]
    cases hs : s.user with
    | none => exact absurd hs hu
    | some u => simp

theorem foldl_authReducer_inv (acts : List AuthAction) :
    ∀ s : AuthState, authInv s → authInv (acts.foldl authReducer s) := by
  induction acts with
  | nil => exact fun s h => h
  | cons a t ih => exact fun s h => ih _ (authReducer_preserves s a h)

/-! ## Claim theorems -/

/-- C1: For every valid QuestionnaireAnswers, scoring is deterministic —
identical answers always yield identical scores — and the resulting total
score lies in the interval [0, 50]. -/
theorem score_deterministic_and_bounded :
    (∀ a b : ValidAnswers, a = b → totalScore a = totalScore b) ∧
    (∀ a : ValidAnswers, 0 ≤ totalScore a ∧ totalScore a ≤ 50) := by
  constructor
  · intro a b h
    rw [h]
  · intro a
    refine ⟨Nat.zero_le _, ?_⟩
    have h1 := agePoints_le a.age
    have h2 := horizonPoints_le a.horizon
    have h3 := incomePoints_le a.income
    have h4 := knowledgePoints_le a.knowledge
    have h5 := maxDropPoints_le a.max_drop
    have h6 := reactionPoints_le a.reaction
    have h7 := liquidityPoints_le a.liquidity
    have h8 := goalPoints_le a.goal
    have h9 := inflationPoints_le a.inflation
    have h10 := digitalPoints_le a.digital
    unfold totalScore
    omega

/-- C1 witness: the theorem applied to a concrete answer set. -/
theorem score_deterministic_and_bounded_witness :
    totalScore exampleAnswers = totalScore exampleAnswers ∧
    (0 ≤ totalScore exampleAnswers ∧ totalScore exampleAnswers ≤ 50) :=
  ⟨score_deterministic_and_bounded.1 exampleAnswers exampleAnswers rfl,
   score_deterministic_and_bounded.2 exampleAnswers⟩

/-- C2 counterexample: a submission whose `horizon` value "xyz" is a
nonempty string outside the fixed `horizon` option set passes the zod
validation — the schema only checks `.min(1)`, so validation does NOT
fail on out-of-set categorical values. -/
theorem out_of_set_value_accepted :
    "xyz" ∉ horizonLabels ∧
    outOfSetSubmission.horizon = some "xyz" ∧
    (zodParse outOfSetSubmission).isSome = true := by
  refine ⟨by decide, rfl, ?_⟩
  rw [zodParse_isSome_iff]
  refine ⟨⟨30, rfl, by omega, by omega⟩, ?_, ?_, ?_, ?_, ?_, ?_, ?_, ?_, ?_⟩ <;>
    exact ⟨_, rfl, by decide⟩

/-- C2 amended: validation fails exactly when a field is missing, the age
is outside [18, 100], or a categorical value is the empty string; any
nonempty string — in the fixed label set or not — passes, and accepted
values are passed through unchanged, never replaced by a default. -/
theorem validation_rejects_only_missing_or_empty :
    (∀ r : RawSubmission,
      (zodParse r).isSome ↔
        (∃ a, r.age = some a ∧ 18 ≤ a ∧ a ≤ 100) ∧
        (∃ s, r.horizon = some s ∧ 1 ≤ s.length) ∧
        (∃ s, r.income = some s ∧ 1 ≤ s.length) ∧
        (∃ s, r.knowledge = some s ∧ 1 ≤ s.length) ∧
        (∃ s, r.max_drop = some s ∧ 1 ≤ s.length) ∧
        (∃ s, r.reaction = some s ∧ 1 ≤ s.length) ∧
        (∃ s, r.liquidity = some s ∧ 1 ≤ s.length) ∧
        (∃ s, r.goal = some s ∧ 1 ≤ s.length) ∧
        (∃ s, r.inflation = some s ∧ 1 ≤ s.length) ∧
        (∃ s, r.digital = some s ∧ 1 ≤ s.length)) ∧
    (∀ r f, zodParse r = some f →
      r.age = some f.age ∧ r.horizon = some f.horizon ∧
      r.income = some f.income ∧ r.knowledge = some f.knowledge ∧
      r.max_drop = some f.max_drop ∧ r.reaction = some f.reaction ∧
      r.liquidity = some f.liquidity ∧ r.goal = some f.goal ∧
      r.inflation = some f.inflation ∧ r.digital = some f.digital) := by
  constructor
  · exact zodParse_isSome_iff
  · intro r f hf
    rw [zodParse_eq_some_iff] at hf
    exact ⟨hf.1.1, hf.2.1.1, hf.2.2.1.1, hf.2.2.2.1.1, hf.2.2.2.2.1.1,
      hf.2.2.2.2.2.1.1, hf.2.2.2.2.2.2.1.1, hf.2.2.2.2.2.2.2.1.1,
      hf.2.2.2.2.2.2.2.2.1.1, hf.2.2.2.2.2.2.2.2.2.1⟩

/-- C2 amended witness: the theorem applied to a concrete submission and
its parsed form. -/
theorem validation_rejects_only_missing_or_empty_witness :
    (submissionWithAge 30).age = some exampleForm.age ∧
    (submissionWithAge 30).horizon = some exampleForm.horizon ∧
    (submissionWithAge 30).income = some exampleForm.income ∧
    (submissionWithAge 30).knowledge = some exampleForm.knowledge ∧
    (submissionWithAge 30).max_drop = some exampleForm.max_drop ∧
    (submissionWithAge 30).reaction = some exampleForm.reaction ∧
    (submissionWithAge 30).liquidity = some exampleForm.liquidity ∧
    (submissionWithAge 30).goal = some exampleForm.goal ∧
    (submissionWithAge 30).inflation = some exampleForm.inflation ∧
    (submissionWithAge 30).digital = some exampleForm.digital :=
  validation_rejects_only_missing_or_empty.2 (submissionWithAge 30)
    exampleForm (by decide)

/-- C3: `analyze_diversification` returns the score `1 − Σ(weight_i²)`;
a single-instrument allocation of weight 1 scores 0, and an equal 5-way
split (each weight 0.2) scores 0.8. -/
theorem diversification_score_formula :
    (∀ alloc : List (String × ℚ),
      (analyzeDiversification alloc).score =
        1 - (alloc.map fun p => p.2 * p.2).sum) ∧
    (analyzeDiversification singleAllocation).score = 0 ∧
    (analyzeDiversification fiveWayAllocation).score = 4 / 5 := by
  refine ⟨fun alloc => rfl, ?_, ?_⟩ <;>
    norm_num [analyzeDiversification, singleAllocation, fiveWayAllocation]

/-- C4: the schema accepts a submission (here with all categorical fields
valid) exactly when its age lies in [18, 100]; any age below 18 or above
100 is rejected. -/
theorem age_accepted_iff_in_range :
    ∀ a : Int, (zodParse (submissionWithAge a)).isSome ↔
      (18 ≤ a ∧ a ≤ 100) := by
  intro a
  rw [zodParse_isSome_iff]
  constructor
  · rintro ⟨⟨x, hx, h18, h100⟩, -⟩
    obtain rfl : a = x := by
      simpa [submissionWithAge] using hx
    exact ⟨h18, h100⟩
  · rintro ⟨h18, h100⟩
    refine ⟨⟨a, rfl, h18, h100⟩, ?_, ?_, ?_, ?_, ?_, ?_, ?_, ?_, ?_⟩ <;>
      exact ⟨_, rfl, by decide⟩

/-- C4 witness: ages 18, 100 pass; ages 17 and 101 are rejected. -/
theorem age_accepted_iff_in_range_witness :
    (zodParse (submissionWithAge 18)).isSome = true ∧
    (zodParse (submissionWithAge 100)).isSome = true ∧
    (zodParse (submissionWithAge 17)).isSome = false ∧
    (zodParse (submissionWithAge 101)).isSome = false := by
  refine ⟨(age_accepted_iff_in_range 18).mpr (by omega),
    (age_accepted_iff_in_range 100).mpr (by omega), ?_, ?_⟩
  · rw [← Bool.not_eq_true]
    intro hc
    exact absurd ((age_accepted_iff_in_range 17).mp hc) (by omega)
  · rw [← Bool.not_eq_true]
    intro hc
    exact absurd ((age_accepted_iff_in_range 101).mp hc) (by omega)

/-- C5: there are exactly five risk buckets, keyed by the ordered
integers 0..4, each carrying one fixed label and one fixed description,
from capital preservation at bucket 0 (Conservador, "Prioriza
preservación del capital") up to maximum growth and highest volatility
tolerance at bucket 4 (Agresivo, "Máximo crecimiento, alta
volatilidad"). -/
theorem risk_buckets_exactly_five_ordered :
    RISK_BUCKETS.length = 5 ∧
    RISK_BUCKETS.map Prod.fst = [0, 1, 2, 3, 4] ∧
    riskBucketAccess 0 =
      some ⟨"Conservador", "#4CAF50", "Prioriza preservación del capital"⟩ ∧
    riskBucketAccess 1 =
      some ⟨"Moderado", "#2196F3", "Balance entre seguridad y crecimiento"⟩ ∧
    riskBucketAccess 2 =
      some ⟨"Balanceado", "#FF9800", "Distribución equilibrada"⟩ ∧
    riskBucketAccess 3 =
      some ⟨"Crecimiento", "#FF5722", "Enfocado en crecimiento largo plazo"⟩ ∧
    riskBucketAccess 4 =
      some ⟨"Agresivo", "#9C27B0", "Máximo crecimiento, alta volatilidad"⟩ :=
  ⟨rfl, rfl, by decide, by decide, by decide, by decide, by decide⟩

/-- C6: the instrument universe is a fixed, closed set of exactly the
five tickers BIL, AGG, ACWI, VNQ and GLD, each carrying a display color;
a ticker has a color exactly when it is one of the five (the table is a
compile-time `as const` object with no runtime mutation path). -/
theorem instrument_universe_closed :
    ETF_COLORS.length = 5 ∧
    ETF_COLORS.map Prod.fst = ["BIL", "AGG", "ACWI", "VNQ", "GLD"] ∧
    ∀ t : String, (etfColorAccess t).isSome ↔
      t ∈ ["BIL", "AGG", "ACWI", "VNQ", "GLD"] := by
  refine ⟨rfl, rfl, fun t => ?_⟩
  simp only [etfColorAccess, ETF_COLORS, assocFind]
  split_ifs with h1 h2 h3 h4 h5 <;> simp_all

/-- C6 witness: the theorem applied to the concrete ticker GLD. -/
theorem instrument_universe_closed_witness :
    (etfColorAccess "GLD").isSome = true :=
  (instrument_universe_closed.2.2 "GLD").mpr (by decide)

/-- C7: QuestionnaireAnswers is a fixed record of exactly the ten named
fields, and validation requires every one of the ten to be present: a
successful parse implies all ten fields were supplied, and any missing
field makes the parse fail. -/
theorem all_ten_fields_required :
    (∀ (r : RawSubmission) (f : RiskAssessmentForm), zodParse r = some f →
      r.age.isSome ∧ r.horizon.isSome ∧ r.income.isSome ∧
      r.knowledge.isSome ∧ r.max_drop.isSome ∧ r.reaction.isSome ∧
      r.liquidity.isSome ∧ r.goal.isSome ∧ r.inflation.isSome ∧
      r.digital.isSome) ∧
    (∀ r : RawSubmission,
      (r.age = none ∨ r.horizon = none ∨ r.income = none ∨
       r.knowledge = none ∨ r.max_drop = none ∨ r.reaction = none ∨
       r.liquidity = none ∨ r.goal = none ∨ r.inflation = none ∨
       r.digital = none) → zodParse r = none) := by
  constructor
  · intro r f hf
    rw [zodParse_eq_some_iff] at hf
    exact ⟨Option.isSome_iff_exists.mpr ⟨_, hf.1.1⟩,
      Option.isSome_iff_exists.mpr ⟨_, hf.2.1.1⟩,
      Option.isSome_iff_exists.mpr ⟨_, hf.2.2.1.1⟩,
      Option.isSome_iff_exists.mpr ⟨_, hf.2.2.2.1.1⟩,
      Option.isSome_iff_exists.mpr ⟨_, hf.2.2.2.2.1.1⟩,
      Option.isSome_iff_exists.mpr ⟨_, hf.2.2.2.2.2.1.1⟩,
      Option.isSome_iff_exists.mpr ⟨_, hf.2.2.2.2.2.2.1.1⟩,
      Option.isSome_iff_exists.mpr ⟨_, hf.2.2.2.2.2.2.2.1.1⟩,
      Option.isSome_iff_exists.mpr ⟨_, hf.2.2.2.2.2.2.2.2.1.1⟩,
      Option.isSome_iff_exists.mpr ⟨_, hf.2.2.2.2.2.2.2.2.2.1⟩⟩
  · intro r hmiss
    cases hz : zodParse r with
    | none => rfl
    | some f =>
      rw [zodParse_eq_some_iff] at hz
      rcases hmiss with h | h | h | h | h | h | h | h | h | h
      · rw [h] at hz; cases hz.1.1
      · rw [h] at hz; cases hz.2.1.1
      · rw [h] at hz; cases hz.2.2.1.1
      · rw [h] at hz; cases hz.2.2.2.1.1
      · rw [h] at hz; cases hz.2.2.2.2.1.1
      · rw [h] at hz; cases hz.2.2.2.2.2.1.1
      · rw [h] at hz; cases hz.2.2.2.2.2.2.1.1
      · rw [h] at hz; cases hz.2.2.2.2.2.2.2.1.1
      · rw [h] at hz; cases hz.2.2.2.2.2.2.2.2.1.1
      · rw [h] at hz; cases hz.2.2.2.2.2.2.2.2.2.1

/-- C7 witness: the theorem applied to a complete submission and to a
submission missing its `digital` field. -/
theorem all_ten_fields_required_witness :
    ((submissionWithAge 30).age.isSome ∧
     (submissionWithAge 30).horizon.isSome ∧
     (submissionWithAge 30).income.isSome ∧
     (submissionWithAge 30).knowledge.isSome ∧
     (submissionWithAge 30).max_drop.isSome ∧
     (submissionWithAge 30).reaction.isSome ∧
     (submissionWithAge 30).liquidity.isSome ∧
     (submissionWithAge 30).goal.isSome ∧
     (submissionWithAge 30).inflation.isSome ∧
     (submissionWithAge 30).digital.isSome) ∧
    zodParse ⟨some 30, some "< 3 años", some "< 5 %", some "Principiante",
      some "5 %", some "Vendo todo", some "Alta", some "Proteger capital",
      some "No me preocupa", none⟩ = none :=
  ⟨all_ten_fields_required.1 (submissionWithAge 30) exampleForm (by decide),
   all_ten_fields_required.2 _ (by simp)⟩

/-- C8: `apiRequest` always resolves to an `ApiResponse` and never
throws: a resolved response body is returned as is; a failed HTTP
response whose body has `success` false is returned as that body; a
network or timeout error (no response body) yields `success` false with
the error message, or "Error de conexión" when the message is empty; any
non-axios exception yields `success` false with "Error inesperado". -/
theorem apiRequest_total_error_handling :
    (∀ b : ApiResponse, apiRequest (.ok b) = b) ∧
    (∀ (b : ApiResponse) (msg : String), b.success = false →
      apiRequest (.axiosErr (some b) msg) = b) ∧
    (∀ msg : String, msg ≠ "" →
      apiRequest (.axiosErr none msg) = ⟨false, none, some msg⟩) ∧
    (apiRequest (.axiosErr none "") =
      ⟨false, none, some "Error de conexión"⟩) ∧
    (apiRequest .nonAxios = ⟨false, none, some "Error inesperado"⟩) := by
  refine ⟨fun b => rfl, fun b msg hb => ?_, fun msg hm => ?_, rfl, rfl⟩
  · simp [apiRequest, hb]
  · simp [apiRequest, hm]

/-- C8 witness: the theorem applied to concrete outcomes. -/
theorem apiRequest_total_error_handling_witness :
    apiRequest (.axiosErr (some ⟨false, none, some "bad request"⟩)
        "Request failed") = ⟨false, none, some "bad request"⟩ ∧
    apiRequest (.axiosErr none "timeout of 30000ms exceeded") =
      ⟨false, none, some "timeout of 30000ms exceeded"⟩ :=
  ⟨apiRequest_total_error_handling.2.1 ⟨false, none, some "bad request"⟩
      "Request failed" rfl,
   apiRequest_total_error_handling.2.2.1 "timeout of 30000ms exceeded"
      (by decide)⟩

/-- C9: the result page assumes the server-supplied risk bucket is one of
0..4 — for any bucket outside that set the lookup `RISK_BUCKETS[bucket]`
is `undefined` and the page cannot render. -/
theorem out_of_range_bucket_unrenderable :
    ∀ n s : Int, ¬ (0 ≤ n ∧ n ≤ 4) →
      riskBucketAccess n = none ∧ renderRiskResult s n = none := by
  intro n s hn
  have hacc : riskBucketAccess n = none := by
    simp only [riskBucketAccess, RISK_BUCKETS, assocFind]
    split_ifs with h0 h1 h2 h3 h4 <;> first | rfl | omega
  exact ⟨hacc, by simp [renderRiskResult, hacc]⟩

/-- C9 witness: the theorem applied to bucket 5 with score 30. -/
theorem out_of_range_bucket_unrenderable_witness :
    riskBucketAccess 5 = none ∧ renderRiskResult 30 5 = none :=
  out_of_range_bucket_unrenderable 5 30 (by omega)

/-- C10: in every state reachable from `initialState` by any action
sequence, `isAuthenticated` implies a non-null user; and the
`AUTH_ERROR` and `AUTH_LOGOUT` actions always produce a state with a
null user and `isAuthenticated` false. -/
theorem auth_reachable_invariant :
    (∀ acts : List AuthAction, (runAuth acts).isAuthenticated = true →
      (runAuth acts).user ≠ none) ∧
    (∀ (s : AuthState) (p : String),
      (authReducer s (.authError p)).user = none ∧
      (authReducer s (.authError p)).isAuthenticated = false) ∧
    (∀ s : AuthState,
      (authReducer s .authLogout).user = none ∧
      (authReducer s .authLogout).isAuthenticated = false) := by
  refine ⟨fun acts => ?_, fun s p => ⟨rfl, rfl⟩, fun s => ⟨rfl, rfl⟩⟩
  exact foldl_authReducer_inv acts initialState (by intro h; cases h)

/-- C10 witness: the theorem applied to a concrete action sequence
reaching an authenticated state, and a concrete error transition. -/
theorem auth_reachable_invariant_witness :
    (runAuth [AuthAction.authSuccess exampleUser]).user ≠ none ∧
    (authReducer initialState (.authError "No token found")).user = none :=
  ⟨auth_reachable_invariant.1 [AuthAction.authSuccess exampleUser] rfl,
   (auth_reachable_invariant.2.1 initialState "No token found").1⟩

end Impulso
